import Mathlib

/-!
Shallow embedding of `hystrix/eventstream.go`: the SSE metrics stream engine
of hystrix-go.  The subscriber registry (a Go map from request to a buffered
channel) is modelled as an association list from connection identity to a
bounded queue; the non-blocking channel send is modelled by an append guarded
by the queue's capacity; byte slices are modelled as `String`s (frames are
ASCII concatenations); `json.Marshal` is kept abstract as a fallible
serialization parameter, since the claims concern framing and error
propagation rather than the JSON grammar itself.
Each call of `time.Now()` inside one publish call is modelled by reading the
next instant from a clock `Nat → Int` (call index ↦ nanosecond timestamp).
-/

set_option autoImplicit false

namespace Hystrix

/-- Connection identity: stands for the `*http.Request` used as map key. -/
abbrev ConnId := Nat

/-- A frame is a wire-ready byte sequence; modelled as a string of bytes. -/
abbrev Frame := String

/-- Constant `streamEventBufferSize = 10`, the capacity of each subscriber channel. -/
def streamEventBufferSize : Nat := 10

/-- A bounded queue modelling `chan []byte` of a fixed capacity:
`cap` is the channel's buffer capacity, `buf` the pending frames in FIFO
order. -/
structure BQueue where
  cap : Nat
  buf : List Frame
deriving DecidableEq, Repr

/-- The subscriber registry `sh.requests : map[*http.Request]chan []byte`,
modelled as an association list (the map's key set is its distinct keys). -/
abbrev Registry := List (ConnId × BQueue)

/-- The keys of the registry: the set of registered connections. -/
def regKeys (reg : Registry) : List ConnId := reg.map Prod.fst

/-- Map lookup `events, ok := sh.requests[req]`. -/
def lookupReq : Registry → ConnId → Option BQueue
  | [], _ => none
  | (c', q) :: rest, c => if c' = c then some q else lookupReq rest c

/-- A non-blocking send on a bounded channel
(`select { case ch <- x: ; default: }`): append if the buffer has free
capacity, otherwise drop the frame and leave the queue unchanged. -/
def chanSend (q : BQueue) (f : Frame) : BQueue :=
  if q.buf.length < q.cap then ⟨q.cap, q.buf ++ [f]⟩ else q

/-- Model of `bytes.Buffer.Write`: appends `p` to the buffer and returns the length
written.  Per the documented contract of `bytes.Buffer.Write`, the returned
error is always nil, which the embedding reflects by always returning
`Except.ok`. -/
def bufferWrite (buf p : String) : Except String (Nat × String) :=
  Except.ok (p.length, buf ++ p)

/-- Model of `StreamHandler.writeToRequests`: build the frame
`"data:" + eventBytes + "\n\n"` in a buffer (each write's error is checked,
as in the source) and send it non-blockingly to every registered queue.
Returns the error result and the updated registry. -/
def writeToRequests (eventBytes : String) (reg : Registry) :
    Except String Unit × Registry :=
  match bufferWrite "" "data:" with
  | Except.error e => (Except.error e, reg)
  | Except.ok (_, b1) =>
    match bufferWrite b1 eventBytes with
    | Except.error e => (Except.error e, reg)
    | Except.ok (_, b2) =>
      match bufferWrite b2 "\n\n" with
      | Except.error e => (Except.error e, reg)
      | Except.ok (_, dataBytes) =>
        (Except.ok (), reg.map (fun p => (p.1, chanSend p.2 dataBytes)))

/-- Model of `StreamHandler.register`: return the existing queue when the connection
is already registered, otherwise create a fresh bounded queue of capacity
`streamEventBufferSize` and insert it. -/
def register (reg : Registry) (c : ConnId) : BQueue × Registry :=
  match lookupReq reg c with
  | some q => (q, reg)
  | none =>
    (⟨streamEventBufferSize, []⟩, reg ++ [(c, ⟨streamEventBufferSize, []⟩)])

/-- Model of `StreamHandler.unregister`: `delete(sh.requests, req)` — remove the
entry for `c` if present, otherwise change nothing. -/
def unregister : Registry → ConnId → Registry
  | [], _ => []
  | (c', q) :: rest, c =>
    if c' = c then unregister rest c else (c', q) :: unregister rest c

/-- A registry operation: one `register` or `unregister` call. -/
inductive RegOp where
  | reg (c : ConnId)
  | unreg (c : ConnId)
deriving DecidableEq, Repr

/-- Apply one registry operation (the queue `register` returns is dropped;
only the registry state matters here). -/
def applyOp (r : Registry) : RegOp → Registry
  | RegOp.reg c => (register r c).2
  | RegOp.unreg c => unregister r c

/-- Apply a finite sequence of register/unregister calls in order. -/
def applyOps (r : Registry) (ops : List RegOp) : Registry :=
  ops.foldl applyOp r

/-- Spec-side step on the set of live connections: registering adds the
connection to the set, unregistering removes it. -/
def liveStep (s : Finset ConnId) : RegOp → Finset ConnId
  | RegOp.reg c => insert c s
  | RegOp.unreg c => s.erase c

/-- Spec-side definition, following the spec's words: the set of distinct
connections that have been registered and not subsequently unregistered
after a sequence of calls. -/
def liveSet (ops : List RegOp) : Finset ConnId :=
  ops.foldl liveStep ∅

/-- Go `uint32(x)`: conversion of a non-negative count to a 32-bit unsigned
machine integer, modelled as reduction modulo `2 ^ 32`. -/
def uint32 (n : Nat) : Nat := n % 4294967296

/-- Latency percentile buckets, `streamCmdLatency` in the source. -/
structure streamCmdLatency where
  Timing0 : Nat
  Timing25 : Nat
  Timing50 : Nat
  Timing75 : Nat
  Timing90 : Nat
  Timing95 : Nat
  Timing99 : Nat
  Timing995 : Nat
  Timing100 : Nat
deriving DecidableEq, Repr

/-- Record `streamCmdMetric` from the source, field for field (the Go field `Type`
is spelled `Typ` here because `Type` is reserved in Lean). -/
structure streamCmdMetric where
  Typ : String
  Name : String
  Group : String
  Time : Int
  ReportingHosts : Nat
  RequestCount : Nat
  ErrorCount : Nat
  ErrorPct : Nat
  CircuitBreakerOpen : Bool
  RollingCountCollapsedRequests : Nat
  RollingCountExceptionsThrown : Nat
  RollingCountFailure : Nat
  RollingCountFallbackFailure : Nat
  RollingCountFallbackRejection : Nat
  RollingCountFallbackSuccess : Nat
  RollingCountResponsesFromCache : Nat
  RollingCountSemaphoreRejected : Nat
  RollingCountShortCircuited : Nat
  RollingCountSuccess : Nat
  RollingCountThreadPoolRejected : Nat
  RollingCountTimeout : Nat
  CurrentConcurrentExecutionCount : Nat
  LatencyExecuteMean : Nat
  LatencyExecute : streamCmdLatency
  LatencyTotalMean : Nat
  LatencyTotal : streamCmdLatency
  CircuitBreakerRequestVolumeThreshold : Nat
  CircuitBreakerSleepWindow : Nat
  CircuitBreakerErrorThresholdPercent : Nat
  CircuitBreakerForceOpen : Bool
  CircuitBreakerForceClosed : Bool
  CircuitBreakerEnabled : Bool
  ExecutionIsolationStrategy : String
  ExecutionIsolationThreadTimeout : Nat
  ExecutionIsolationThreadInterruptOnTimeout : Bool
  ExecutionIsolationThreadPoolKeyOverride : String
  ExecutionIsolationSemaphoreMaxConcurrentRequests : Nat
  FallbackIsolationSemaphoreMaxConcurrentRequests : Nat
  RollingStatsWindow : Nat
  RequestCacheEnabled : Bool
  RequestLogEnabled : Bool
deriving DecidableEq, Repr

/-- Record `streamThreadPoolMetric` from the source, field for field. -/
structure streamThreadPoolMetric where
  Typ : String
  Name : String
  ReportingHosts : Nat
  CurrentActiveCount : Nat
  CurrentCompletedTaskCount : Nat
  CurrentCorePoolSize : Nat
  CurrentLargestPoolSize : Nat
  CurrentMaximumPoolSize : Nat
  CurrentPoolSize : Nat
  CurrentQueueSize : Nat
  CurrentTaskCount : Nat
  RollingMaxActiveThreads : Nat
  RollingCountThreadsExecuted : Nat
  RollingStatsWindow : Nat
  QueueSizeRejectionThreshold : Nat
deriving DecidableEq, Repr

/-- Modelled from the spec: the rolling-statistics collaborator
(`cb.metrics` in the source lives outside this package's shown files): it
answers count/percentage queries as of a given instant, and exposes the
current latency percentile summaries and means, exactly the queries
`publishMetrics` issues. -/
structure metricExchange where
  RequestsSum : Int → Nat
  ErrorsSum : Int → Nat
  ErrorPercent : Int → Nat
  SuccessesSum : Int → Nat
  FailuresSum : Int → Nat
  RejectedSum : Int → Nat
  ShortCircuitsSum : Int → Nat
  TimeoutsSum : Int → Nat
  FallbackSuccessesSum : Int → Nat
  FallbackFailuresSum : Int → Nat
  TotalDurationTimings : streamCmdLatency
  TotalDurationMean : Nat
  RunDurationTimings : streamCmdLatency
  RunDurationMean : Nat

/-- Modelled from the spec: the execution pool collaborator (`executorPool`
lives outside the shown files): name, configured capacity, current active
count and rolling counters as of a given instant. -/
structure executorPool where
  Name : String
  Max : Nat
  ActiveCount : Nat
  ExecutedSum : Int → Nat
  MaxActiveRequestsMax : Int → Nat

/-- Modelled from the spec: the static configured properties of one circuit
(thresholds, window size, isolation strategy) that §3 says the record
echoes; the circuit settings type lives outside the shown files. -/
structure CircuitConfig where
  errorPercentThreshold : Nat
  sleepWindow : Nat
  requestVolumeThreshold : Nat
  rollingStatsWindow : Nat
  isolationStrategy : String

/-- The circuit collaborator as `publishMetrics` consumes it: its name, its
metrics handle, the observed result of `isOpen()`, its force-open flag, its
pool, and (modelled from the spec) its static configuration. -/
structure CircuitBreaker where
  Name : String
  metrics : metricExchange
  isOpen : Bool
  forceOpen : Bool
  executorPool : executorPool
  config : CircuitConfig

/-- Function `currentTime()`: `time.Now().UnixNano() / 1000000`; inside
`publishMetrics` this is the second `time.Now()` call, hence `clock 1`
(Go's integer division truncates toward zero, as does `Int.div`). -/
def currentTime (clock : Nat → Int) : Int := (clock 1).tdiv 1000000

/-- The `streamCmdMetric` literal built by `publishMetrics`: `now` is the
first `time.Now()` call (`clock 0`) and is passed to every rolling-counter
query; fields absent from the Go composite literal carry Go's zero value. -/
def cmdMetricRecord (cb : CircuitBreaker) (clock : Nat → Int) :
    streamCmdMetric :=
  let now := clock 0
  { Typ := "HystrixCommand"
    Name := cb.Name
    Group := cb.Name
    Time := currentTime clock
    ReportingHosts := 1
    RequestCount := uint32 (cb.metrics.RequestsSum now)
    ErrorCount := uint32 (cb.metrics.ErrorsSum now)
    ErrorPct := uint32 (cb.metrics.ErrorPercent now)
    CircuitBreakerOpen := cb.isOpen
    RollingCountCollapsedRequests := 0
    RollingCountExceptionsThrown := 0
    RollingCountFailure := uint32 (cb.metrics.FailuresSum now)
    RollingCountFallbackFailure := uint32 (cb.metrics.FallbackFailuresSum now)
    RollingCountFallbackRejection := 0
    RollingCountFallbackSuccess := uint32 (cb.metrics.FallbackSuccessesSum now)
    RollingCountResponsesFromCache := 0
    RollingCountSemaphoreRejected := 0
    RollingCountShortCircuited := uint32 (cb.metrics.ShortCircuitsSum now)
    RollingCountSuccess := uint32 (cb.metrics.SuccessesSum now)
    RollingCountThreadPoolRejected := uint32 (cb.metrics.RejectedSum now)
    RollingCountTimeout := uint32 (cb.metrics.TimeoutsSum now)
    CurrentConcurrentExecutionCount := 0
    LatencyExecuteMean := cb.metrics.RunDurationMean
    LatencyExecute := cb.metrics.RunDurationTimings
    LatencyTotalMean := cb.metrics.TotalDurationMean
    LatencyTotal := cb.metrics.TotalDurationTimings
    CircuitBreakerRequestVolumeThreshold := 20
    CircuitBreakerSleepWindow := 5000
    CircuitBreakerErrorThresholdPercent := 50
    CircuitBreakerForceOpen := cb.forceOpen
    CircuitBreakerForceClosed := false
    CircuitBreakerEnabled := true
    ExecutionIsolationStrategy := "THREAD"
    ExecutionIsolationThreadTimeout := 0
    ExecutionIsolationThreadInterruptOnTimeout := false
    ExecutionIsolationThreadPoolKeyOverride := ""
    ExecutionIsolationSemaphoreMaxConcurrentRequests := 0
    FallbackIsolationSemaphoreMaxConcurrentRequests := 0
    RollingStatsWindow := 10000
    RequestCacheEnabled := false
    RequestLogEnabled := false }

/-- The `streamThreadPoolMetric` literal built by `publishThreadPools`;
`now` is that function's single `time.Now()` call (`clock 0`). -/
def poolMetricRecord (pool : executorPool) (clock : Nat → Int) :
    streamThreadPoolMetric :=
  let now := clock 0
  { Typ := "HystrixThreadPool"
    Name := pool.Name
    ReportingHosts := 1
    CurrentActiveCount := uint32 pool.ActiveCount
    CurrentCompletedTaskCount := 0
    CurrentCorePoolSize := uint32 pool.Max
    CurrentLargestPoolSize := uint32 pool.Max
    CurrentMaximumPoolSize := uint32 pool.Max
    CurrentPoolSize := uint32 pool.Max
    CurrentQueueSize := 0
    CurrentTaskCount := 0
    RollingMaxActiveThreads := uint32 (pool.MaxActiveRequestsMax now)
    RollingCountThreadsExecuted := uint32 (pool.ExecutedSum now)
    RollingStatsWindow := 10000
    QueueSizeRejectionThreshold := 0 }

/-- Model of `StreamHandler.publishMetrics`: marshal the command record (the
serializer is an abstract fallible parameter standing for `json.Marshal`);
on failure return the error with the registry untouched, on success
broadcast via `writeToRequests`, propagating its result. -/
def publishMetrics (mc : streamCmdMetric → Except String String)
    (clock : Nat → Int) (cb : CircuitBreaker) (reg : Registry) :
    Except String Unit × Registry :=
  match mc (cmdMetricRecord cb clock) with
  | Except.error e => (Except.error e, reg)
  | Except.ok eventBytes => writeToRequests eventBytes reg

/-- Model of `StreamHandler.publishThreadPools`: marshal the pool record; on failure
return the error, on success broadcast via `writeToRequests` but discard
its result and return nil (`err = sh.writeToRequests(eventBytes); return
nil` in the source). -/
def publishThreadPools (mp : streamThreadPoolMetric → Except String String)
    (clock : Nat → Int) (pool : executorPool) (reg : Registry) :
    Except String Unit × Registry :=
  match mp (poolMetricRecord pool clock) with
  | Except.error e => (Except.error e, reg)
  | Except.ok eventBytes =>
    (Except.ok (), (writeToRequests eventBytes reg).2)

/-- One tick of `StreamHandler.loop`: for every monitored circuit, publish
its command metrics then its pool metrics, both with their return values
discarded, exactly as the loop body does. -/
def processTick (mc : streamCmdMetric → Except String String)
    (mp : streamThreadPoolMetric → Except String String)
    (clock : Nat → Int) (circuits : List CircuitBreaker) (reg : Registry) :
    Registry :=
  match circuits with
  | [] => reg
  | cb :: rest =>
    let r1 := (publishMetrics mc clock cb reg).2
    let r2 := (publishThreadPools mp clock cb.executorPool r1).2
    processTick mc mp clock rest r2

/-- The events the loop's `select` can observe: a timer tick or the closed
`done` channel. -/
inductive LoopEvent where
  | tick
  | done
deriving DecidableEq, Repr

/-- Model of `StreamHandler.loop` run over a finite schedule of observed events:
each tick publishes all circuits' metrics; the first observation of the
stop signal returns immediately, ignoring every later event. -/
def loopRun (mc : streamCmdMetric → Except String String)
    (mp : streamThreadPoolMetric → Except String String)
    (clock : Nat → Int) (circuits : List CircuitBreaker) :
    List LoopEvent → Registry → Registry
  | [], reg => reg
  | LoopEvent.done :: _, reg => reg
  | LoopEvent.tick :: rest, reg =>
    loopRun mc mp clock circuits rest (processTick mc mp clock circuits reg)

/-- A concrete rolling-statistics collaborator for concrete evaluations. -/
def exMetrics : metricExchange :=
  { RequestsSum := fun _ => 2
    ErrorsSum := fun _ => 0
    ErrorPercent := fun _ => 0
    SuccessesSum := fun _ => 2
    FailuresSum := fun _ => 0
    RejectedSum := fun _ => 0
    ShortCircuitsSum := fun _ => 0
    TimeoutsSum := fun _ => 0
    FallbackSuccessesSum := fun _ => 0
    FallbackFailuresSum := fun _ => 0
    TotalDurationTimings := ⟨0, 0, 0, 0, 0, 0, 0, 0, 0⟩
    TotalDurationMean := 0
    RunDurationTimings := ⟨0, 0, 0, 0, 0, 0, 0, 0, 0⟩
    RunDurationMean := 0 }

/-- A concrete execution pool for concrete evaluations. -/
def exPool : executorPool :=
  { Name := "eventstream"
    Max := 10
    ActiveCount := 0
    ExecutedSum := fun _ => 1
    MaxActiveRequestsMax := fun _ => 1 }

/-- A concrete circuit configuration whose every value differs from the
constants hard-coded in `publishMetrics`. -/
def exConfig : CircuitConfig :=
  { errorPercentThreshold := 99
    sleepWindow := 1000
    requestVolumeThreshold := 5
    rollingStatsWindow := 20000
    isolationStrategy := "SEMAPHORE" }

/-- A concrete circuit for concrete evaluations. -/
def exCircuit : CircuitBreaker :=
  { Name := "eventstream"
    metrics := exMetrics
    isOpen := false
    forceOpen := false
    executorPool := exPool
    config := exConfig }

/-- A concrete clock: every `time.Now()` call observes instant `0`. -/
def exClock : Nat → Int := fun _ => 0

/-- A subscriber queue that is at capacity (10 pending frames). -/
def exFullQueue : BQueue :=
  ⟨streamEventBufferSize, List.replicate 10 "f"⟩

/-- A concrete registry: connection 0 has a free queue, connection 1 a full
one. -/
def exReg : Registry :=
  [(0, ⟨streamEventBufferSize, []⟩), (1, exFullQueue)]

/-- A serializer that always fails, standing for a `json.Marshal` error. -/
def failMarshalCmd : streamCmdMetric → Except String String :=
  fun _ => Except.error "marshal failed"

/-- A serializer for pool records that always succeeds. -/
def okMarshalPool : streamThreadPoolMetric → Except String String :=
  fun _ => Except.ok "{}"

/-! ### Helper lemmas -/

lemma str_empty_append (s : String) : "" ++ s = s := rfl

/-- Closed form of `writeToRequests`: the buffer writes never fail, so it
returns nil and sends `"data:" ++ eventBytes ++ "\n\n"` non-blockingly to
every queue. -/
lemma writeToRequests_eq (e : String) (reg : Registry) :
    writeToRequests e reg =
      (Except.ok (),
        reg.map fun p => (p.1, chanSend p.2 ("data:" ++ e ++ "\n\n"))) := by
  have h : (("" ++ "data:") ++ e) ++ "\n\n" = "data:" ++ e ++ "\n\n" := by
    rw [str_empty_append]
  show (Except.ok (),
      reg.map fun p => (p.1, chanSend p.2 ((("" ++ "data:") ++ e) ++ "\n\n"))) = _
  rw [h]

/-- Lookup fails exactly when the connection is not a key. -/
lemma lookupReq_eq_none (reg : Registry) (c : ConnId) :
    lookupReq reg c = none ↔ c ∉ regKeys reg := by
  induction reg with
  | nil => simp [lookupReq, regKeys]
  | cons p rest ih =>
    obtain ⟨c', q⟩ := p
    by_cases h : c' = c
    · subst h
      simp [lookupReq, regKeys]
    · have h' : ¬c = c' := fun he => h he.symm
      simp only [lookupReq, if_neg h, ih, regKeys, List.map_cons,
        List.mem_cons]
      tauto

/-- Unregistering preserves distinctness of keys and erases the connection
from the key set. -/
lemma unregister_invariant (reg : Registry) (c : ConnId)
    (hnd : (regKeys reg).Nodup) :
    (regKeys (unregister reg c)).Nodup ∧
    (regKeys (unregister reg c)).toFinset = (regKeys reg).toFinset.erase c := by
  induction reg with
  | nil => simp [unregister, regKeys]
  | cons p rest ih =>
    obtain ⟨c', q⟩ := p
    have hnd' : (c' :: regKeys rest).Nodup := hnd
    obtain ⟨hc', hrest⟩ := List.nodup_cons.mp hnd'
    obtain ⟨ih1, ih2⟩ := ih hrest
    by_cases h : c' = c
    · subst h
      have hu : unregister ((c', q) :: rest) c' = unregister rest c' := by
        simp [unregister]
      rw [hu]
      refine ⟨ih1, ?_⟩
      rw [ih2]
      ext a
      simp only [Finset.mem_erase, List.mem_toFinset, regKeys,
        List.map_cons, List.mem_cons]
      tauto
    · have hu : unregister ((c', q) :: rest) c = (c', q) :: unregister rest c := by
        simp [unregister, h]
      rw [hu]
      have hmemiff : ∀ a, a ∈ regKeys (unregister rest c) ↔
          a ≠ c ∧ a ∈ regKeys rest := by
        intro a
        rw [← List.mem_toFinset, ih2]
        simp [Finset.mem_erase, List.mem_toFinset]
      constructor
      · refine List.nodup_cons.mpr ⟨?_, ih1⟩
        intro hmem
        exact hc' ((hmemiff c').mp hmem).2
      · ext a
        simp only [regKeys, List.map_cons, List.toFinset_cons,
          Finset.mem_insert, List.mem_toFinset, Finset.mem_erase]
        constructor
        · rintro (rfl | hm)
          · exact ⟨h, Or.inl rfl⟩
          · obtain ⟨hne, hmem⟩ := (hmemiff a).mp hm
            exact ⟨hne, Or.inr hmem⟩
        · rintro ⟨hne, (rfl | hmem)⟩
          · exact Or.inl rfl
          · exact Or.inr ((hmemiff a).mpr ⟨hne, hmem⟩)

/-- One register/unregister call preserves distinctness of keys and tracks
the spec-side set step. -/
lemma applyOp_invariant (reg : Registry) (op : RegOp)
    (hnd : (regKeys reg).Nodup) :
    (regKeys (applyOp reg op)).Nodup ∧
    (regKeys (applyOp reg op)).toFinset =
      liveStep (regKeys reg).toFinset op := by
  cases op with
  | reg c =>
    simp only [applyOp, liveStep]
    cases hl : lookupReq reg c with
    | some q =>
      have hc : c ∈ regKeys reg := by
        by_contra hn
        rw [← lookupReq_eq_none] at hn
        simp [hn] at hl
      simp only [register, hl]
      exact ⟨hnd, (Finset.insert_eq_self.mpr (List.mem_toFinset.mpr hc)).symm⟩
    | none =>
      have hc : c ∉ regKeys reg := (lookupReq_eq_none reg c).mp hl
      simp only [register, hl]
      constructor
      · simp only [regKeys, List.map_append, List.map_cons, List.map_nil]
        rw [List.nodup_append]
        refine ⟨hnd, List.nodup_singleton c, ?_⟩
        intro a ha hb
        have hac : a = c := by simpa using hb
        subst hac
        exact hc ha
      · ext a
        simp only [regKeys, List.map_append, List.map_cons, List.map_nil,
          List.mem_toFinset, List.mem_append, List.mem_singleton,
          Finset.mem_insert]
        tauto
  | unreg c =>
    exact unregister_invariant reg c hnd

/-- Running a sequence of calls preserves distinctness of keys and the key
set equals the fold of the spec-side set step. -/
lemma applyOps_invariant (ops : List RegOp) (reg : Registry)
    (hnd : (regKeys reg).Nodup) :
    (regKeys (applyOps reg ops)).Nodup ∧
    (regKeys (applyOps reg ops)).toFinset =
      ops.foldl liveStep (regKeys reg).toFinset := by
  induction ops generalizing reg with
  | nil => exact ⟨hnd, rfl⟩
  | cons op rest ih =>
    obtain ⟨h1, h2⟩ := applyOp_invariant reg op hnd
    obtain ⟨g1, g2⟩ := ih (applyOp reg op) h1
    have happ : applyOps reg (op :: rest) = applyOps (applyOp reg op) rest := rfl
    refine ⟨by rw [happ]; exact g1, ?_⟩
    rw [happ, g2, h2]
    rfl

/-! ### Claim theorems -/

/-- Claim C1: broadcasting a frame via `writeToRequests` never fails and
never blocks the caller; it keeps one entry per registered subscriber, and
every subscriber whose queue has free capacity receives exactly the frame
`"data:" ++ eventBytes ++ "\n\n"` appended to its queue, while every
subscriber whose queue is at capacity keeps its queue unchanged (the frame
is dropped for it alone), independently of the other subscribers. -/
theorem writeToRequests_fanout (eventBytes : String) (reg : Registry) :
    (writeToRequests eventBytes reg).1 = Except.ok () ∧
    (writeToRequests eventBytes reg).2.length = reg.length ∧
    ∀ c q, (c, q) ∈ reg →
      ((q.buf.length < q.cap →
          (c, ⟨q.cap, q.buf ++ ["data:" ++ eventBytes ++ "\n\n"]⟩) ∈
            (writeToRequests eventBytes reg).2) ∧
        (¬q.buf.length < q.cap →
          (c, q) ∈ (writeToRequests eventBytes reg).2)) := by
  rw [writeToRequests_eq]
  refine ⟨rfl, by simp, ?_⟩
  intro c q hmem
  constructor
  · intro hfree
    have h := List.mem_map_of_mem
      (fun p : ConnId × BQueue =>
        (p.1, chanSend p.2 ("data:" ++ eventBytes ++ "\n\n"))) hmem
    simpa [chanSend, hfree] using h
  · intro hfull
    have h := List.mem_map_of_mem
      (fun p : ConnId × BQueue =>
        (p.1, chanSend p.2 ("data:" ++ eventBytes ++ "\n\n"))) hmem
    simpa [chanSend, hfull] using h

/-- Witness for C1: on a registry with a free queue (connection 0) and a
full queue (connection 1), the frame reaches connection 0 verbatim and
connection 1's queue is unchanged. -/
theorem writeToRequests_fanout_witness :
    (0, (⟨10, ["data:{}\n\n"]⟩ : BQueue)) ∈ (writeToRequests "{}" exReg).2 ∧
    (1, exFullQueue) ∈ (writeToRequests "{}" exReg).2 := by
  have h := writeToRequests_fanout "{}" exReg
  exact ⟨(h.2.2 0 ⟨10, []⟩ (by decide)).1 (by decide),
    (h.2.2 1 exFullQueue (by decide)).2 (by decide)⟩

/-- Claim C2: a tick of the loop never aborts it — after a tick the loop
goes on to process the remaining events on the state produced by
`processTick`, whatever the serializer does — and when one circuit's
command-record serialization fails, exactly that circuit's command event is
skipped (its pool event and every remaining circuit are still
processed). -/
theorem loop_failure_isolation :
    (∀ (mc : streamCmdMetric → Except String String)
        (mp : streamThreadPoolMetric → Except String String)
        (clock : Nat → Int) (circuits : List CircuitBreaker)
        (rest : List LoopEvent) (reg : Registry),
      loopRun mc mp clock circuits (LoopEvent.tick :: rest) reg =
        loopRun mc mp clock circuits rest
          (processTick mc mp clock circuits reg)) ∧
    (∀ (mc : streamCmdMetric → Except String String)
        (mp : streamThreadPoolMetric → Except String String)
        (clock : Nat → Int) (cb : CircuitBreaker)
        (cbs : List CircuitBreaker) (reg : Registry) (e : String),
      mc (cmdMetricRecord cb clock) = Except.error e →
      processTick mc mp clock (cb :: cbs) reg =
        processTick mc mp clock cbs
          (publishThreadPools mp clock cb.executorPool reg).2) := by
  constructor
  · intro _ _ _ _ _ _
    rfl
  · intro mc mp clock cb cbs reg e h
    simp [processTick, publishMetrics, h]

/-- Witness for C2: with a serializer that always fails, the tick that
processes one circuit on a concrete registry still publishes that
circuit's pool event and moves on to the rest of the circuit list. -/
theorem loop_failure_isolation_witness :
    processTick failMarshalCmd okMarshalPool exClock [exCircuit] exReg =
      processTick failMarshalCmd okMarshalPool exClock []
        (publishThreadPools okMarshalPool exClock
          exCircuit.executorPool exReg).2 := by
  have h := loop_failure_isolation
  exact h.2 failMarshalCmd okMarshalPool exClock exCircuit [] exReg
    "marshal failed" rfl

/-- Claim C3: the frame handed to the subscriber queues is exactly
`"data:" ++ serializedRecord ++ "\n\n"`, and a serialization failure in
`publishMetrics` is returned to the caller as an error with the registry
untouched. -/
theorem frame_encoding :
    (∀ (e : String) (reg : Registry),
      (writeToRequests e reg).2 =
        reg.map fun p => (p.1, chanSend p.2 ("data:" ++ e ++ "\n\n"))) ∧
    (∀ (mc : streamCmdMetric → Except String String) (clock : Nat → Int)
        (cb : CircuitBreaker) (reg : Registry) (err : String),
      mc (cmdMetricRecord cb clock) = Except.error err →
        publishMetrics mc clock cb reg = (Except.error err, reg)) := by
  constructor
  · intro e reg
    rw [writeToRequests_eq]
  · intro mc clock cb reg err h
    simp [publishMetrics, h]

/-- Witness for C3: with an always-failing serializer, `publishMetrics`
returns the marshal error and the concrete registry unchanged. -/
theorem frame_encoding_witness :
    publishMetrics failMarshalCmd exClock exCircuit exReg =
      (Except.error "marshal failed", exReg) := by
  have h := frame_encoding
  exact h.2 failMarshalCmd exClock exCircuit exReg "marshal failed" rfl

/-- Claim C4: `register` is idempotent per connection — if a queue already
exists for the connection it is returned and the registry is unchanged;
otherwise a fresh bounded queue of capacity 10 is created, inserted and
returned — and a call grows the registry by at most one entry. -/
theorem register_idempotent (reg : Registry) (c : ConnId) :
    (∀ q, lookupReq reg c = some q → register reg c = (q, reg)) ∧
    (lookupReq reg c = none →
      register reg c =
        (⟨streamEventBufferSize, []⟩,
          reg ++ [(c, ⟨streamEventBufferSize, []⟩)]) ∧
      (register reg c).1.cap = 10) ∧
    reg.length ≤ (register reg c).2.length ∧
    (register reg c).2.length ≤ reg.length + 1 := by
  refine ⟨?_, ?_, ?_, ?_⟩
  · intro q hq
    simp [register, hq]
  · intro hq
    refine ⟨by simp [register, hq], ?_⟩
    simp [register, hq, streamEventBufferSize]
  · cases hl : lookupReq reg c with
    | some q' => simp [register, hl]
    | none => simp [register, hl]
  · cases hl : lookupReq reg c with
    | some q' => simp [register, hl]
    | none => simp [register, hl]

/-- Witness for C4: registering the already-registered connection 0 returns
its existing queue and the same registry; registering the fresh connection
5 appends one new empty queue of capacity 10. -/
theorem register_idempotent_witness :
    register exReg 0 = (⟨10, []⟩, exReg) ∧
    register exReg 5 =
      (⟨streamEventBufferSize, []⟩,
        exReg ++ [(5, ⟨streamEventBufferSize, []⟩)]) := by
  have h0 := register_idempotent exReg 0
  have h5 := register_idempotent exReg 5
  exact ⟨h0.1 ⟨10, []⟩ (by decide), (h5.2.1 (by decide)).1⟩

/-- Claim C5: after any finite sequence of register/unregister calls from
the empty registry, the registry has pairwise-distinct connection keys and
its size equals the number of distinct connections registered and not
subsequently unregistered. -/
theorem registry_size_tracks_live (ops : List RegOp) :
    (regKeys (applyOps [] ops)).Nodup ∧
    (applyOps [] ops).length = (liveSet ops).card := by
  obtain ⟨h1, h2⟩ := applyOps_invariant ops [] (by simp [regKeys])
  refine ⟨h1, ?_⟩
  have hlen : (applyOps [] ops).length =
      (regKeys (applyOps [] ops)).length := by
    simp [regKeys]
  rw [hlen, ← List.toFinset_card_of_nodup h1, h2]
  simp [liveSet, regKeys]

/-- Counterexample to C6: a circuit configured with error threshold 99,
sleep window 1000, request-volume threshold 5, window 20000 and semaphore
isolation still gets 50/5000/20/10000/THREAD in its record — the record
does not echo the circuit's configuration. -/
theorem cmdMetricRecord_ignores_config :
    (cmdMetricRecord exCircuit exClock).CircuitBreakerErrorThresholdPercent ≠
      exCircuit.config.errorPercentThreshold ∧
    (cmdMetricRecord exCircuit exClock).CircuitBreakerSleepWindow ≠
      exCircuit.config.sleepWindow ∧
    (cmdMetricRecord exCircuit exClock).CircuitBreakerRequestVolumeThreshold ≠
      exCircuit.config.requestVolumeThreshold ∧
    (cmdMetricRecord exCircuit exClock).RollingStatsWindow ≠
      exCircuit.config.rollingStatsWindow ∧
    (cmdMetricRecord exCircuit exClock).ExecutionIsolationStrategy ≠
      exCircuit.config.isolationStrategy := by
  refine ⟨?_, ?_, ?_, ?_, ?_⟩ <;> decide

/-- Claim C6 as amended: the property fields of every Command Metric Record
are the fixed constants 50 (error threshold), 5000 (sleep window), 20
(request-volume threshold), 10000 (rolling-statistics window) and
"THREAD" (isolation strategy), independent of the circuit's configuration;
only the force-open flag is echoed from the circuit. -/
theorem cmdMetricRecord_hardcoded_props (cb : CircuitBreaker)
    (clock : Nat → Int) :
    (cmdMetricRecord cb clock).CircuitBreakerErrorThresholdPercent = 50 ∧
    (cmdMetricRecord cb clock).CircuitBreakerSleepWindow = 5000 ∧
    (cmdMetricRecord cb clock).CircuitBreakerRequestVolumeThreshold = 20 ∧
    (cmdMetricRecord cb clock).RollingStatsWindow = 10000 ∧
    (cmdMetricRecord cb clock).ExecutionIsolationStrategy = "THREAD" ∧
    (cmdMetricRecord cb clock).CircuitBreakerForceOpen = cb.forceOpen :=
  ⟨rfl, rfl, rfl, rfl, rfl, rfl⟩

/-- Claim C7: within one Command Metric Record, every count and percentage
field is the rolling-statistics collaborator's answer as of the single
instant `clock 0` — the one `now := time.Now()` taken at the start of
`publishMetrics` — so no two such fields reflect different instants. -/
theorem cmdMetricRecord_single_now (cb : CircuitBreaker)
    (clock : Nat → Int) :
    (cmdMetricRecord cb clock).RequestCount =
      uint32 (cb.metrics.RequestsSum (clock 0)) ∧
    (cmdMetricRecord cb clock).ErrorCount =
      uint32 (cb.metrics.ErrorsSum (clock 0)) ∧
    (cmdMetricRecord cb clock).ErrorPct =
      uint32 (cb.metrics.ErrorPercent (clock 0)) ∧
    (cmdMetricRecord cb clock).RollingCountSuccess =
      uint32 (cb.metrics.SuccessesSum (clock 0)) ∧
    (cmdMetricRecord cb clock).RollingCountFailure =
      uint32 (cb.metrics.FailuresSum (clock 0)) ∧
    (cmdMetricRecord cb clock).RollingCountThreadPoolRejected =
      uint32 (cb.metrics.RejectedSum (clock 0)) ∧
    (cmdMetricRecord cb clock).RollingCountShortCircuited =
      uint32 (cb.metrics.ShortCircuitsSum (clock 0)) ∧
    (cmdMetricRecord cb clock).RollingCountTimeout =
      uint32 (cb.metrics.TimeoutsSum (clock 0)) ∧
    (cmdMetricRecord cb clock).RollingCountFallbackSuccess =
      uint32 (cb.metrics.FallbackSuccessesSum (clock 0)) ∧
    (cmdMetricRecord cb clock).RollingCountFallbackFailure =
      uint32 (cb.metrics.FallbackFailuresSum (clock 0)) :=
  ⟨rfl, rfl, rfl, rfl, rfl, rfl, rfl, rfl, rfl, rfl⟩

/-- Claim C8: once the loop observes the stop signal, it exits at once:
whatever events would have followed, no further frame is broadcast and the
registry — entries and queue contents alike — is left exactly as it
was. -/
theorem loop_stops_on_done (mc : streamCmdMetric → Except String String)
    (mp : streamThreadPoolMetric → Except String String)
    (clock : Nat → Int) (circuits : List CircuitBreaker)
    (rest : List LoopEvent) (reg : Registry) :
    loopRun mc mp clock circuits (LoopEvent.done :: rest) reg = reg := rfl

/-- Claim C9: `unregister` removes the connection's entry when present,
leaves every other connection's entry untouched, and is the identity when
the connection was never registered. -/
theorem unregister_noop_or_remove (reg : Registry) (c : ConnId) :
    lookupReq (unregister reg c) c = none ∧
    (∀ c', c' ≠ c → lookupReq (unregister reg c) c' = lookupReq reg c') ∧
    (lookupReq reg c = none → unregister reg c = reg) := by
  induction reg with
  | nil => exact ⟨rfl, fun _ _ => rfl, fun _ => rfl⟩
  | cons p rest ih =>
    obtain ⟨c', q⟩ := p
    by_cases h : c' = c
    · subst h
      have hu : unregister ((c', q) :: rest) c' = unregister rest c' := by
        simp [unregister]
      refine ⟨?_, ?_, ?_⟩
      · rw [hu]
        exact ih.1
      · intro c'' hne
        have h2 : ¬c' = c'' := fun hh => hne hh.symm
        have hl : lookupReq ((c', q) :: rest) c'' = lookupReq rest c'' := by
          simp [lookupReq, h2]
        rw [hu, ih.2.1 c'' hne, hl]
      · intro habs
        simp [lookupReq] at habs
    · have hu : unregister ((c', q) :: rest) c = (c', q) :: unregister rest c := by
        simp [unregister, h]
      refine ⟨?_, ?_, ?_⟩
      · rw [hu]
        simpa [lookupReq, h] using ih.1
      · intro c'' hne
        rw [hu]
        by_cases h2 : c' = c''
        · subst h2
          simp [lookupReq]
        · simp [lookupReq, h2, ih.2.1 c'' hne]
      · intro hnone
        have hrest : lookupReq rest c = none := by
          simpa [lookupReq, h] using hnone
        rw [hu, ih.2.2 hrest]

/-- Witness for C9: unregistering the never-registered connection 5 leaves
the concrete registry exactly unchanged. -/
theorem unregister_noop_witness : unregister exReg 5 = exReg := by
  have h := unregister_noop_or_remove exReg 5
  exact h.2.2 (by decide)

/-- Claim C10: `writeToRequests` returns nil on every input — its error
checks guard buffer writes that cannot fail and the per-subscriber send is
non-blocking — and `publishThreadPools` returns nil whenever serialization
succeeds, performing the broadcast but discarding its result, so delivery
outcomes never reach the loop. -/
theorem delivery_outcomes_unsurfaced :
    (∀ (e : String) (reg : Registry),
      (writeToRequests e reg).1 = Except.ok ()) ∧
    (∀ (mp : streamThreadPoolMetric → Except String String)
        (clock : Nat → Int) (pool : executorPool) (reg : Registry)
        (s : String),
      mp (poolMetricRecord pool clock) = Except.ok s →
        publishThreadPools mp clock pool reg =
          (Except.ok (), (writeToRequests s reg).2)) := by
  constructor
  · intro e reg
    rw [writeToRequests_eq]
  · intro mp clock pool reg s h
    simp [publishThreadPools, h]

/-- Witness for C10: on the concrete registry, `publishThreadPools` with a
succeeding serializer returns nil while the broadcast's updated registry is
kept. -/
theorem delivery_outcomes_unsurfaced_witness :
    publishThreadPools okMarshalPool exClock exPool exReg =
      (Except.ok (), (writeToRequests "{}" exReg).2) := by
  have h := delivery_outcomes_unsurfaced
  exact h.2 okMarshalPool exClock exPool exReg "{}" rfl

end Hystrix
